import Mathlib

/- Shallow embedding of the PSTennant/relative_age adjustment engine:
   app.py `relative_age_adjustment_linear` and the numeric core of
   `age_comparison_val`, and scripts/rae_sbox.py
   `relative_age_adjustment_linear` / `relative_age_adjustment_exp`.

   Dates are proleptic Gregorian, converted to day ordinals exactly as
   CPython's `datetime.date.toordinal`; `date - date` becomes `dateSub`,
   an integer number of days.  Python's float arithmetic is modelled by
   exact arithmetic (rationals on the linear path, reals where `math.exp`
   appears), Python's `round` (round half to even, returning int) by
   `pyRound`, and a raised `ZeroDivisionError` by an `Option` returning
   `none`. -/

structure Date where
  year : Nat
  month : Nat
  day : Nat
deriving DecidableEq

def isLeapYear (y : Nat) : Bool :=
  (y % 4 == 0 && y % 100 != 0) || (y % 400 == 0)

-- Cumulative day counts before each month, as in CPython's _DAYS_BEFORE_MONTH.
def daysBeforeMonth (y m : Nat) : Nat :=
  (match m with
   | 1 => 0 | 2 => 31 | 3 => 59 | 4 => 90 | 5 => 120 | 6 => 151
   | 7 => 181 | 8 => 212 | 9 => 243 | 10 => 273 | 11 => 304 | 12 => 334
   | _ => 0) +
  (if 3 ≤ m ∧ isLeapYear y then 1 else 0)

def daysBeforeYear (y : Nat) : Nat :=
  365 * (y - 1) + (y - 1) / 4 - (y - 1) / 100 + (y - 1) / 400

def toordinal (d : Date) : Nat :=
  daysBeforeYear d.year + daysBeforeMonth d.year d.month + d.day

-- `(a - b).days` for Python dates.
def dateSub (a b : Date) : Int :=
  (toordinal a : Int) - (toordinal b : Int)

-- Python's built-in `round`: nearest integer, ties to the even integer.
def pyRound {α : Type} [LinearOrderedField α] [FloorRing α] (x : α) : ℤ :=
  let n := ⌊x⌋
  let frac := x - (n : α)
  if frac < 1 / 2 then n
  else if 1 / 2 < frac then n + 1
  else if n % 2 = 0 then n else n + 1

/- app.py, lines 10-33.  The guard `child_delta = 0` models the
   ZeroDivisionError raised by `oldest_delta.days / child_delta.days`. -/
def relative_age_adjustment_linear (test_date child_bday oldest_in_cohort : Date)
    (child_test_score max_test_score : ℚ) : Option ℚ :=
  let oldest_delta := dateSub test_date oldest_in_cohort
  let child_delta := dateSub test_date child_bday
  if child_delta = 0 then none
  else
    let inflation_factor : ℚ := (oldest_delta : ℚ) / (child_delta : ℚ)
    let adjusted_score : ℚ := (pyRound (child_test_score * inflation_factor) : ℚ)
    some (if adjusted_score > max_test_score then max_test_score else adjusted_score)

/- app.py, lines 119-128: the numeric core of `age_comparison_val`
   (the `percent_older` value it renders). -/
def percent_older (test_date child_bday oldest_bday : Date) : Option ℚ :=
  let child_age_on_testdate := dateSub test_date child_bday
  let oldest_age_on_testdate := dateSub test_date oldest_bday
  if child_age_on_testdate = 0 then none
  else
    some (((oldest_age_on_testdate : ℚ) / (child_age_on_testdate : ℚ) - 1) * 100)

namespace rae_sbox

/- scripts/rae_sbox.py, lines 40-63: same body as app.py's function,
   but with the script's argument order. -/
def relative_age_adjustment_linear (test_date : Date)
    (child_test_score max_test_score : ℚ)
    (child_bday oldest_in_cohort : Date) : Option ℚ :=
  let oldest_delta := dateSub test_date oldest_in_cohort
  let child_delta := dateSub test_date child_bday
  if child_delta = 0 then none
  else
    let inflation_factor : ℚ := (oldest_delta : ℚ) / (child_delta : ℚ)
    let adjusted_score : ℚ := (pyRound (child_test_score * inflation_factor) : ℚ)
    some (if adjusted_score > max_test_score then max_test_score else adjusted_score)

-- The logistic factor `1 / (1 + math.exp(-k * (relative_age - 0.5)))`.
noncomputable def adjustment_factor (k relative_age : ℝ) : ℝ :=
  1 / (1 + Real.exp (-k * (relative_age - 1 / 2)))

/- scripts/rae_sbox.py, lines 69-92.  The first guard models the
   ZeroDivisionError from `(test_date - child_bday)/(test_date - oldest_in_cohort)`
   when the second timedelta is zero, the second guard the ZeroDivisionError
   from dividing by `max_test_score` when it is zero. -/
noncomputable def relative_age_adjustment_exp (test_date : Date)
    (child_test_score max_test_score : ℝ)
    (child_bday oldest_in_cohort : Date) (k a : ℝ) : Option ℤ :=
  if dateSub test_date oldest_in_cohort = 0 then none
  else
    let relative_age : ℝ :=
      (dateSub test_date child_bday : ℝ) / (dateSub test_date oldest_in_cohort : ℝ)
    let af : ℝ := adjustment_factor k relative_age
    if max_test_score = 0 then none
    else
      some (pyRound (max_test_score *
        (1 - Real.exp (-a * (child_test_score / af) / max_test_score))))

end rae_sbox

-- The concrete scenario fixed in scripts/rae_sbox.py, lines 13-15,
-- and reused by the spec's concrete test cases.
def d_test : Date := ⟨2024, 1, 15⟩
def d_child : Date := ⟨2021, 7, 18⟩
def d_oldest : Date := ⟨2020, 9, 1⟩

-- An input with invalid date ordering: the assessment date precedes the
-- child's birth date (both ages nonzero).
def d_invalid_test : Date := ⟨2020, 1, 1⟩
def d_invalid_child : Date := ⟨2021, 1, 1⟩
def d_invalid_oldest : Date := ⟨2019, 1, 1⟩

-- Day counts of the concrete scenario.
lemma dateSub_test_child : dateSub d_test d_child = 911 := by decide

lemma dateSub_test_oldest : dateSub d_test d_oldest = 1231 := by decide

section pyRoundLemmas

variable {α : Type} [LinearOrderedField α] [FloorRing α]

lemma pyRound_eq_floor (x : α) (h : x - (⌊x⌋ : α) < 1 / 2) : pyRound x = ⌊x⌋ := by
  simp only [pyRound]
  rw [if_pos h]

lemma pyRound_eq_floor_add_one (x : α) (h : 1 / 2 < x - (⌊x⌋ : α)) :
    pyRound x = ⌊x⌋ + 1 := by
  have h' : ¬ x - (⌊x⌋ : α) < 1 / 2 := by linarith
  simp only [pyRound]
  rw [if_neg h', if_pos h]

-- Evaluation when x lies in the lower half of an integer interval.
lemma pyRound_eq_low (x : α) (n : ℤ) (h1 : (n : α) ≤ x) (h2 : x < (n : α) + 1 / 2) :
    pyRound x = n := by
  have hfl : ⌊x⌋ = n := Int.floor_eq_iff.mpr ⟨h1, by linarith⟩
  rw [pyRound_eq_floor x (by rw [hfl]; linarith), hfl]

-- Evaluation when x lies strictly in the upper half of an integer interval.
lemma pyRound_eq_high (x : α) (n : ℤ) (h1 : (n : α) + 1 / 2 < x) (h2 : x < (n : α) + 1) :
    pyRound x = n + 1 := by
  have hfl : ⌊x⌋ = n := Int.floor_eq_iff.mpr ⟨by linarith, by linarith⟩
  rw [pyRound_eq_floor_add_one x (by rw [hfl]; linarith), hfl]

-- Ties go to the even integer.
lemma pyRound_tie (x : α) (n : ℤ) (hx : x = (n : α) + 1 / 2) (he : n % 2 = 0) :
    pyRound x = n := by
  have hfl : ⌊x⌋ = n := Int.floor_eq_iff.mpr ⟨by rw [hx]; linarith, by rw [hx]; linarith⟩
  have hfrac : x - (⌊x⌋ : α) = 1 / 2 := by rw [hfl, hx]; ring
  simp only [pyRound]
  rw [hfrac]
  rw [if_neg (by linarith), if_neg (by linarith), hfl, if_pos he]

lemma pyRound_intCast (n : ℤ) : pyRound (n : α) = n := by
  have : ((n : α)) - (⌊(n : α)⌋ : α) < 1 / 2 := by
    rw [Int.floor_intCast]; norm_num
  rw [pyRound_eq_floor _ this, Int.floor_intCast]

lemma le_pyRound (x : α) : x - 1 / 2 ≤ (pyRound x : α) := by
  have hf1 : (⌊x⌋ : α) ≤ x := Int.floor_le x
  have hf2 : x < (⌊x⌋ : α) + 1 := Int.lt_floor_add_one x
  simp only [pyRound]
  split_ifs with h1 h2 h3 <;> push_cast <;> linarith

lemma pyRound_le (x : α) : (pyRound x : α) ≤ x + 1 / 2 := by
  have hf1 : (⌊x⌋ : α) ≤ x := Int.floor_le x
  have hf2 : x < (⌊x⌋ : α) + 1 := Int.lt_floor_add_one x
  simp only [pyRound]
  split_ifs with h1 h2 h3 <;> push_cast <;> linarith

-- An integer bound above the argument bounds the rounded value.
lemma pyRound_le_int (x : α) (m : ℤ) (h : x ≤ (m : α)) : pyRound x ≤ m := by
  have h1 : (pyRound x : α) ≤ x + 1 / 2 := pyRound_le x
  have h2 : (pyRound x : α) < (m : α) + 1 := by linarith
  exact_mod_cast Int.lt_add_one_iff.mp (by exact_mod_cast h2)

-- A nonneg integer score scaled by a factor of at least one rounds to at least itself.
lemma int_le_pyRound (x : α) (n : ℤ) (h : (n : α) ≤ x) : n ≤ pyRound x := by
  have h1 : x - 1 / 2 ≤ (pyRound x : α) := le_pyRound x
  have h2 : (n : α) - 1 < (pyRound x : α) := by linarith
  have h3 : (n : ℤ) - 1 < pyRound x := by exact_mod_cast h2
  omega

end pyRoundLemmas

-- When the child's age in days is nonzero, the linear adjustment returns
-- the rounded inflated score hard-capped at the maximum.
lemma linear_some (td cb ob : Date) (s m : ℚ) (h : dateSub td cb ≠ 0) :
    relative_age_adjustment_linear td cb ob s m =
      some (min ((pyRound (s * ((dateSub td ob : ℚ) / (dateSub td cb : ℚ)))) : ℚ) m) := by
  simp only [relative_age_adjustment_linear, if_neg h]
  congr 1
  rw [min_def]
  split_ifs with h1 h2 <;> first | rfl | linarith

-- The sandbox script's copy computes exactly the app's function.
lemma rae_sbox_linear_eq (td cb ob : Date) (s m : ℚ) :
    rae_sbox.relative_age_adjustment_linear td s m cb ob =
      relative_age_adjustment_linear td cb ob s m := rfl

-- round(70 * 1231/911) = round(94.588...) = 95
lemma pyRound_seventy : pyRound ((86170 : ℚ) / 911) = 95 := by
  have := pyRound_eq_high ((86170 : ℚ) / 911) 94 (by norm_num) (by norm_num)
  simpa using this

-- round(90 * 1231/911) = round(121.613...) = 122
lemma pyRound_ninety : pyRound ((110790 : ℚ) / 911) = 122 := by
  have := pyRound_eq_high ((110790 : ℚ) / 911) 121 (by norm_num) (by norm_num)
  simpa using this

-- The inflation factor of the concrete scenario as a rational literal.
lemma concrete_inflation_cast :
    ((1231 : ℤ) : ℚ) / ((911 : ℤ) : ℚ) = (1231 : ℚ) / 911 := by norm_num

-- Evaluating the app's function on the concrete scenario's dates.
lemma linear_concrete_eval (s m : ℚ) :
    relative_age_adjustment_linear d_test d_child d_oldest s m =
      some (min ((pyRound (s * ((1231 : ℚ) / 911))) : ℚ) m) := by
  rw [linear_some d_test d_child d_oldest s m (by decide),
    dateSub_test_child, dateSub_test_oldest, concrete_inflation_cast]

-- The app's function on the spec's concrete scenario with raw score 70.
lemma linear_concrete_seventy :
    relative_age_adjustment_linear d_test d_child d_oldest 70 100 = some 95 := by
  rw [linear_concrete_eval 70 100]
  have h : (70 : ℚ) * ((1231 : ℚ) / 911) = 86170 / 911 := by norm_num
  rw [h, pyRound_seventy]
  norm_num

-- The app's function on the spec's concrete scenario with raw score 90.
lemma linear_concrete_ninety :
    relative_age_adjustment_linear d_test d_child d_oldest 90 100 = some 100 := by
  rw [linear_concrete_eval 90 100]
  have h : (90 : ℚ) * ((1231 : ℚ) / 911) = 110790 / 911 := by norm_num
  rw [h, pyRound_ninety]
  norm_num

/-- Claim C1 counterexample: on the concrete scenario the oldest cohort
member's age in days is 1231, not 1232 as the claim states. -/
theorem oldest_age_days_ne_spec :
    dateSub d_test d_oldest ≠ 1232 ∧ dateSub d_test d_oldest = 1231 := by decide

/-- Claim C1 (amended): for assessment date 2024-01-15, child birth date
2021-07-18 and oldest birth date 2020-09-01, the linear adjustment computes
oldest_age_days = 1231 and child_age_days = 911, an inflation factor
1231/911 = 1.35126... (between 1.3512 and 1.3513), and returns 95 for raw
score 70 (uncapped) and 100 for raw score 90, capped from
round(90 * 1231/911) = 122; the sandbox script's copy agrees. -/
theorem linear_concrete_scenario :
    dateSub d_test d_oldest = 1231 ∧
    dateSub d_test d_child = 911 ∧
    ((13512 : ℚ) / 10000 ≤ (1231 : ℚ) / 911 ∧ (1231 : ℚ) / 911 < (13513 : ℚ) / 10000) ∧
    relative_age_adjustment_linear d_test d_child d_oldest 70 100 = some 95 ∧
    pyRound ((90 : ℚ) * ((1231 : ℚ) / 911)) = 122 ∧
    relative_age_adjustment_linear d_test d_child d_oldest 90 100 = some 100 ∧
    rae_sbox.relative_age_adjustment_linear d_test 70 100 d_child d_oldest = some 95 := by
  refine ⟨by decide, by decide, ⟨by norm_num, by norm_num⟩, linear_concrete_seventy,
    ?_, linear_concrete_ninety, ?_⟩
  · have h : (90 : ℚ) * ((1231 : ℚ) / 911) = 110790 / 911 := by norm_num
    rw [h, pyRound_ninety]
  · rw [rae_sbox_linear_eq]
    exact linear_concrete_seventy

/-- Claim C4: whenever the child's age in days is nonzero, the linear
adjustment returns min(round(raw_score * inflation_factor), max_score):
only an upper cap is applied and no lower floor, so negative adjusted
scores pass through unmodified. -/
theorem linear_min_cap_no_floor (td cb ob : Date) (s m : ℚ)
    (h : dateSub td cb ≠ 0) :
    relative_age_adjustment_linear td cb ob s m =
      some (min ((pyRound (s * ((dateSub td ob : ℚ) / (dateSub td cb : ℚ)))) : ℚ) m) :=
  linear_some td cb ob s m h

/-- Claim C4 witness: on the concrete dates with raw score -70 and maximum
100, the adjustment returns the negative value -95 unmodified. -/
theorem linear_min_cap_no_floor_witness :
    dateSub d_test d_child ≠ 0 ∧
    relative_age_adjustment_linear d_test d_child d_oldest (-70) 100 = some (-95) ∧
    (-95 : ℚ) < 0 := by
  refine ⟨by decide, ?_, by norm_num⟩
  rw [linear_min_cap_no_floor d_test d_child d_oldest (-70) 100 (by decide),
    dateSub_test_child, dateSub_test_oldest, concrete_inflation_cast]
  have h : (-70 : ℚ) * ((1231 : ℚ) / 911) = -86170 / 911 := by norm_num
  have hr : pyRound ((-86170 : ℚ) / 911) = -95 :=
    pyRound_eq_low ((-86170 : ℚ) / 911) (-95) (by norm_num) (by norm_num)
  rw [h, hr]
  norm_num

/-- Claim C5: when the assessment date equals the child's birth date the
child's age in days is zero and the linear adjustment fails with the
division-by-zero condition (modelled as none), not a silently returned
value. -/
theorem linear_zero_child_age_fails (d ob : Date) (s m : ℚ) :
    relative_age_adjustment_linear d d ob s m = none := by
  simp [relative_age_adjustment_linear, dateSub]

/-- Claim C2 counterexample: with equal birth dates (inflation factor
exactly 1) but the fractional raw score 1/2 (below the maximum), the
linear adjustment returns round(1/2) = 0, not the raw score itself. -/
theorem linear_equal_bday_fractional_score :
    0 < dateSub d_test d_child ∧
    relative_age_adjustment_linear d_test d_child d_child (1 / 2) 100 = some 0 ∧
    (0 : ℚ) ≠ 1 / 2 := by
  refine ⟨by decide, ?_, by norm_num⟩
  rw [linear_some d_test d_child d_child (1 / 2) 100 (by decide), dateSub_test_child]
  have hf : ((911 : ℤ) : ℚ) / ((911 : ℤ) : ℚ) = 1 := by norm_num
  have hr : pyRound ((1 : ℚ) / 2) = 0 := pyRound_tie ((1 : ℚ) / 2) 0 (by norm_num) (by decide)
  rw [hf, mul_one, hr]
  norm_num

/-- Claim C2 (amended): for every valid input (assessment date strictly
after the birth dates) where the child's birth date equals the oldest
birth date and the raw score is an integer, the linear adjustment returns
exactly the raw score (the inflation factor is exactly 1), unless the raw
score exceeds the maximum, in which case it returns the maximum. -/
theorem linear_equal_bday_integer_score (td cb : Date) (n : ℤ) (m : ℚ)
    (h : 0 < dateSub td cb) :
    relative_age_adjustment_linear td cb cb (n : ℚ) m =
      some (if (n : ℚ) > m then m else (n : ℚ)) := by
  rw [linear_some td cb cb (n : ℚ) m h.ne']
  have hd : ((dateSub td cb : ℤ) : ℚ) ≠ 0 := Int.cast_ne_zero.mpr h.ne'
  rw [div_self hd, mul_one, pyRound_intCast]
  congr 1
  rw [min_def]
  split_ifs <;> first | rfl | linarith

/-- Claim C2 witness: on the concrete assessment date with equal birth
dates and integer raw score 70 (at most the maximum 100), the adjusted
score is exactly 70. -/
theorem linear_equal_bday_integer_score_witness :
    0 < dateSub d_test d_child ∧
    relative_age_adjustment_linear d_test d_child d_child ((70 : ℤ) : ℚ) 100 =
      some ((70 : ℤ) : ℚ) := by
  refine ⟨by decide, ?_⟩
  rw [linear_equal_bday_integer_score d_test d_child 70 100 (by decide)]
  norm_num

/-- Claim C3 counterexample: on a valid input with the oldest birth date
strictly earlier than the child's and the fractional raw score 3/10, the
uncapped value round(raw_score * inflation_factor) is 0, which is below
the raw score. -/
theorem linear_uncapped_fractional_drop :
    0 < dateSub d_test d_child ∧
    dateSub d_test d_child < dateSub d_test d_oldest ∧
    ((pyRound ((3 / 10 : ℚ) *
      ((dateSub d_test d_oldest : ℚ) / (dateSub d_test d_child : ℚ)))) : ℚ) < 3 / 10 := by
  refine ⟨by decide, by decide, ?_⟩
  rw [dateSub_test_child, dateSub_test_oldest, concrete_inflation_cast]
  have h : (3 / 10 : ℚ) * ((1231 : ℚ) / 911) = 3693 / 9110 := by norm_num
  have hr : pyRound ((3693 : ℚ) / 9110) = 0 :=
    pyRound_eq_low ((3693 : ℚ) / 9110) 0 (by norm_num) (by norm_num)
  rw [h, hr]
  norm_num

/-- Claim C3 (amended): for every valid input where the oldest birth date
is strictly earlier than the child's birth date and the raw score is a
nonnegative integer, the uncapped value round(raw_score * inflation_factor)
is at least the raw score, and any returned value never exceeds the
maximum score. -/
theorem linear_oldest_older_inflates (td cb ob : Date) (n : ℤ) (m : ℚ)
    (hc : 0 < dateSub td cb) (ho : dateSub td cb < dateSub td ob) (hn : 0 ≤ n) :
    (n : ℚ) ≤ ((pyRound ((n : ℚ) *
      ((dateSub td ob : ℚ) / (dateSub td cb : ℚ)))) : ℚ) ∧
    ∀ v, relative_age_adjustment_linear td cb ob (n : ℚ) m = some v → v ≤ m := by
  constructor
  · have hc' : (0 : ℚ) < ((dateSub td cb : ℤ) : ℚ) := by exact_mod_cast hc
    have hco : ((dateSub td cb : ℤ) : ℚ) ≤ ((dateSub td ob : ℤ) : ℚ) := by
      exact_mod_cast ho.le
    have hf : (1 : ℚ) ≤ (dateSub td ob : ℚ) / (dateSub td cb : ℚ) :=
      (one_le_div hc').mpr hco
    have hx : (n : ℚ) ≤ (n : ℚ) * ((dateSub td ob : ℚ) / (dateSub td cb : ℚ)) :=
      le_mul_of_one_le_right (by exact_mod_cast hn) hf
    exact_mod_cast int_le_pyRound _ n hx
  · intro v hv
    rw [linear_some td cb ob (n : ℚ) m hc.ne'] at hv
    rw [← Option.some.inj hv]
    exact min_le_right _ _

/-- Claim C3 witness: on the concrete scenario with integer raw score 70,
the hypotheses hold and the uncapped rounded value is at least 70. -/
theorem linear_oldest_older_inflates_witness :
    0 < dateSub d_test d_child ∧
    dateSub d_test d_child < dateSub d_test d_oldest ∧
    (0 : ℤ) ≤ 70 ∧
    ((70 : ℤ) : ℚ) ≤ ((pyRound (((70 : ℤ) : ℚ) *
      ((dateSub d_test d_oldest : ℚ) / (dateSub d_test d_child : ℚ)))) : ℚ) :=
  ⟨by decide, by decide, by decide,
    (linear_oldest_older_inflates d_test d_child d_oldest 70 100
      (by decide) (by decide) (by decide)).1⟩

/-- Claim C8 failing input: with an assessment date strictly before the
child's birth date (ages nonzero, so no exception is raised), the linear
adjustment is not rejected: it silently computes and returns -70. -/
theorem linear_invalid_ordering_silent :
    dateSub d_invalid_test d_invalid_child < 0 ∧
    dateSub d_invalid_test d_invalid_child ≠ 0 ∧
    relative_age_adjustment_linear d_invalid_test d_invalid_child d_invalid_oldest
      70 100 = some (-70) := by
  refine ⟨by decide, by decide, ?_⟩
  rw [linear_some d_invalid_test d_invalid_child d_invalid_oldest 70 100 (by decide),
    show dateSub d_invalid_test d_invalid_oldest = 365 from by decide,
    show dateSub d_invalid_test d_invalid_child = -366 from by decide]
  have h : (70 : ℚ) * (((365 : ℤ) : ℚ) / ((-366 : ℤ) : ℚ)) = -12775 / 183 := by
    push_cast
    norm_num
  have hr : pyRound ((-12775 : ℚ) / 183) = -70 :=
    pyRound_eq_low ((-12775 : ℚ) / 183) (-70) (by norm_num) (by norm_num)
  rw [h, hr]
  norm_num

/-- Claim C9: whenever the child's age in days is nonzero, the
percent-older computation returns (oldest_age_days / child_age_days - 1)
* 100; on the concrete scenario it returns 32000/911 = 35.12...,
approximately 35. -/
theorem percent_older_formula_and_concrete :
    (∀ td cb ob : Date, dateSub td cb ≠ 0 →
      percent_older td cb ob =
        some (((dateSub td ob : ℚ) / (dateSub td cb : ℚ) - 1) * 100)) ∧
    percent_older d_test d_child d_oldest = some (32000 / 911) ∧
    (35 : ℚ) ≤ 32000 / 911 ∧ (32000 : ℚ) / 911 < 71 / 2 := by
  refine ⟨?_, ?_, by norm_num, by norm_num⟩
  · intro td cb ob h
    simp only [percent_older]
    rw [if_neg h]
  · simp only [percent_older]
    rw [if_neg (by decide : ¬ dateSub d_test d_child = 0),
      dateSub_test_child, dateSub_test_oldest]
    norm_num

/-- Claim C9 witness: the formula applied at the concrete scenario. -/
theorem percent_older_witness :
    dateSub d_test d_child ≠ 0 ∧
    percent_older d_test d_child d_oldest =
      some (((dateSub d_test d_oldest : ℚ) / (dateSub d_test d_child : ℚ) - 1) * 100) :=
  ⟨by decide, percent_older_formula_and_concrete.1 d_test d_child d_oldest (by decide)⟩

/-- Claim C10 counterexample: with the fractional maximum score 1/2 and
raw score 70, the cap engages and the returned value is the fractional
maximum 1/2 itself, not an integer. -/
theorem linear_cap_fractional_max :
    dateSub d_test d_child ≠ 0 ∧
    relative_age_adjustment_linear d_test d_child d_oldest 70 (1 / 2) = some (1 / 2) ∧
    ¬ ∃ n : ℤ, ((1 : ℚ) / 2) = (n : ℚ) := by
  refine ⟨by decide, ?_, ?_⟩
  · rw [linear_concrete_eval 70 (1 / 2)]
    have h : (70 : ℚ) * ((1231 : ℚ) / 911) = 86170 / 911 := by norm_num
    rw [h, pyRound_seventy]
    norm_num [min_def]
  · rintro ⟨n, hn⟩
    have h2 : ((2 * n : ℤ) : ℚ) = 1 := by push_cast; linarith
    have h3 : (2 * n : ℤ) = 1 := by exact_mod_cast h2
    omega

/-- Claim C10 (amended): whenever the linear adjustment returns normally
(child's age in days nonzero), the returned value is at most the maximum
score, even for invalid date orderings, negative raw scores or raw scores
above the maximum; it is an integer whenever the maximum score is an
integer (an uncapped result is always an integer, but a capped result
equals the maximum score, which may be fractional). -/
theorem linear_result_bounded_and_integer (td cb ob : Date) (s m v : ℚ)
    (h : dateSub td cb ≠ 0)
    (hv : relative_age_adjustment_linear td cb ob s m = some v) :
    v ≤ m ∧ ((∃ n : ℤ, m = (n : ℚ)) → ∃ n : ℤ, v = (n : ℚ)) := by
  rw [linear_some td cb ob s m h] at hv
  rw [← Option.some.inj hv]
  constructor
  · exact min_le_right _ _
  · rintro ⟨k, rfl⟩
    rcases le_total ((pyRound (s * ((dateSub td ob : ℚ) / (dateSub td cb : ℚ))) : ℚ))
      ((k : ℚ)) with hle | hle
    · exact ⟨_, min_eq_left hle⟩
    · exact ⟨k, min_eq_right hle⟩

/-- Claim C10 witness: on the concrete scenario (raw score 70, integer
maximum 100) the returned value 95 is at most 100 and is an integer. -/
theorem linear_result_bounded_and_integer_witness :
    dateSub d_test d_child ≠ 0 ∧
    relative_age_adjustment_linear d_test d_child d_oldest 70 100 = some 95 ∧
    (95 : ℚ) ≤ 100 ∧ ∃ n : ℤ, (95 : ℚ) = (n : ℚ) := by
  have h := linear_result_bounded_and_integer d_test d_child d_oldest 70 100 95
    (by decide) linear_concrete_seventy
  exact ⟨by decide, linear_concrete_seventy, h.1, h.2 ⟨100, by norm_num⟩⟩

-- The logistic adjustment factor always lies strictly between 0 and 1.
lemma adjustment_factor_pos (k r : ℝ) : 0 < rae_sbox.adjustment_factor k r := by
  unfold rae_sbox.adjustment_factor
  positivity

lemma adjustment_factor_lt_one (k r : ℝ) : rae_sbox.adjustment_factor k r < 1 := by
  unfold rae_sbox.adjustment_factor
  rw [div_lt_one (by positivity)]
  linarith [Real.exp_pos (-k * (r - 1 / 2))]

-- With max score 3/5, raw score 1 and a = 2, the soft-capped value lies in
-- (1/2, 3/5) for any adjustment factor in (0, 1), so it rounds up to 1.
lemma pyRound_exp_small (A : ℝ) (hA0 : 0 < A) (hA1 : A < 1) :
    pyRound ((3 / 5 : ℝ) * (1 - Real.exp (-2 * ((1 : ℝ) / A) / (3 / 5)))) = 1 := by
  have hinv : (1 : ℝ) < 1 / A := by
    rw [lt_div_iff₀ hA0]
    linarith
  have hs2 : -2 * ((1 : ℝ) / A) / (3 / 5) < -2 := by
    have h : -2 * ((1 : ℝ) / A) / (3 / 5) = -(10 / 3) * (1 / A) := by ring
    rw [h]
    linarith
  have hexp2 : Real.exp 2 = Real.exp 1 * Real.exp 1 := by
    rw [← Real.exp_add]
    norm_num
  have h6 : (6 : ℝ) < Real.exp 2 := by
    nlinarith [Real.exp_one_gt_d9]
  have hprod : Real.exp (-2 : ℝ) * Real.exp 2 = 1 := by
    rw [← Real.exp_add]
    norm_num
  have hneg2 : Real.exp (-2 : ℝ) < 1 / 6 := by
    nlinarith [Real.exp_pos (-2 : ℝ)]
  have hlt : Real.exp (-2 * ((1 : ℝ) / A) / (3 / 5)) < 1 / 6 :=
    lt_trans (Real.exp_lt_exp.mpr hs2) hneg2
  have hpos := Real.exp_pos (-2 * ((1 : ℝ) / A) / (3 / 5))
  have := pyRound_eq_high ((3 / 5 : ℝ) * (1 - Real.exp (-2 * ((1 : ℝ) / A) / (3 / 5)))) 0
    (by push_cast; linarith) (by push_cast; linarith)
  simpa using this

/-- Claim C7: the exponential variant fails (returns none, modelling
ZeroDivisionError) when the maximum score is 0 and when the assessment
date equals the oldest birth date; the logistic adjustment factor is never
zero, so that division never fails. -/
theorem exp_div_zero_conditions :
    (∀ (td cb ob : Date) (s k a : ℝ),
      rae_sbox.relative_age_adjustment_exp td s 0 cb ob k a = none) ∧
    (∀ (td cb : Date) (s m k a : ℝ),
      rae_sbox.relative_age_adjustment_exp td s m cb td k a = none) ∧
    (∀ k r : ℝ, rae_sbox.adjustment_factor k r ≠ 0) := by
  refine ⟨?_, ?_, fun k r => (adjustment_factor_pos k r).ne'⟩
  · intro td cb ob s k a
    simp only [rae_sbox.relative_age_adjustment_exp]
    split_ifs <;> rfl
  · intro td cb s m k a
    simp only [rae_sbox.relative_age_adjustment_exp]
    rw [if_pos (by simp [dateSub])]

/-- Claim C6 counterexample: on a valid input (positive ages, raw score
1 ≥ 0) with the fractional maximum score 3/5, the exponential variant
returns 1, which exceeds the maximum score. -/
theorem exp_exceeds_fractional_max :
    0 < dateSub d_test d_child ∧
    0 < dateSub d_test d_oldest ∧
    rae_sbox.relative_age_adjustment_exp d_test 1 (3 / 5) d_child d_oldest 1 2 = some 1 ∧
    ¬ ((1 : ℝ) ≤ 3 / 5) := by
  refine ⟨by decide, by decide, ?_, by norm_num⟩
  simp only [rae_sbox.relative_age_adjustment_exp]
  rw [if_neg (by rw [dateSub_test_oldest]; norm_num),
    if_neg (by norm_num : ¬ (3 / 5 : ℝ) = 0),
    pyRound_exp_small _ (adjustment_factor_pos _ _) (adjustment_factor_lt_one _ _)]

/-- Claim C6 (amended): for every valid input (assessment date strictly
after both birth dates, maximum score positive, with any raw score and
tuning constants), the exponential variant returns round(max_score *
(1 - e^(-a * (raw_score / f) / max_score))) with f the logistic
adjustment factor of the relative age; and for positive ages, a
nonnegative raw score and a positive integer maximum score, that result
never exceeds the maximum score. -/
theorem exp_formula_and_integer_max_bound :
    (∀ (td cb ob : Date) (s mx k a : ℝ), 0 < dateSub td cb → 0 < dateSub td ob →
      0 < mx →
      rae_sbox.relative_age_adjustment_exp td s mx cb ob k a =
        some (pyRound (mx * (1 - Real.exp (-a * (s / rae_sbox.adjustment_factor k
          ((dateSub td cb : ℝ) / (dateSub td ob : ℝ))) / mx))))) ∧
    (∀ (td cb ob : Date) (s : ℝ) (m : ℤ) (k a : ℝ), 0 < dateSub td cb →
      0 < dateSub td ob → 0 ≤ s → 0 < m →
      pyRound ((m : ℝ) * (1 - Real.exp (-a * (s / rae_sbox.adjustment_factor k
        ((dateSub td cb : ℝ) / (dateSub td ob : ℝ))) / (m : ℝ)))) ≤ m) := by
  constructor
  · intro td cb ob s mx k a hcb hob hmx
    simp only [rae_sbox.relative_age_adjustment_exp]
    rw [if_neg hob.ne', if_neg hmx.ne']
  · intro td cb ob s m k a hcb hob hs hm
    apply pyRound_le_int
    have hmR : (0 : ℝ) < ((m : ℤ) : ℝ) := by exact_mod_cast hm
    have he := Real.exp_pos (-a * (s / rae_sbox.adjustment_factor k
      ((dateSub td cb : ℝ) / (dateSub td ob : ℝ))) / (m : ℝ))
    nlinarith

/-- Claim C6 witness: on the concrete scenario the formula clause holds
with the fractional maximum 3/5 and raw score 70, and the bound clause
holds with the integer maximum 100, both at the default tuning constants
k = 1, a = 2. -/
theorem exp_formula_and_integer_max_bound_witness :
    rae_sbox.relative_age_adjustment_exp d_test 70 (3 / 5) d_child d_oldest 1 2 =
      some (pyRound ((3 / 5 : ℝ) * (1 - Real.exp (-2 * ((70 : ℝ) /
        rae_sbox.adjustment_factor 1
        ((dateSub d_test d_child : ℝ) / (dateSub d_test d_oldest : ℝ))) /
        (3 / 5 : ℝ))))) ∧
    pyRound (((100 : ℤ) : ℝ) * (1 - Real.exp (-2 * ((70 : ℝ) /
      rae_sbox.adjustment_factor 1
      ((dateSub d_test d_child : ℝ) / (dateSub d_test d_oldest : ℝ))) /
      ((100 : ℤ) : ℝ)))) ≤ 100 :=
  ⟨exp_formula_and_integer_max_bound.1 d_test d_child d_oldest 70 (3 / 5) 1 2
    (by decide) (by decide) (by norm_num),
   exp_formula_and_integer_max_bound.2 d_test d_child d_oldest 70 100 1 2
    (by decide) (by decide) (by norm_num) (by decide)⟩
